import Mathlib

/-!
Verification of the Algo-Trading repository (src/iex_api.py, src/analysis.py).

The development shallowly embeds the two Python modules:

* `IEXApi` and its methods from src/iex_api.py: request construction
  (`createRequest`), request sending (`send_request`), the capped batch
  fetchers (`get_stats`, `get_advanced_stats`) and the symbol-list chunker
  (`chunk_symbols_list`).
* `Analysis.momentum_analysis` and the response flattening of
  `Analysis.get_symbol_stats` from src/analysis.py, with pandas columns
  embedded as lists of optional rationals (`none` is a NaN/missing cell).

Python exceptions are embedded as `Except`; the catch-all boundary of
`_create_request` is the total function `createRequest`.
-/

set_option autoImplicit false

/-- Embedding of the `IEXApi` object state: the fields read by the methods
under verification (`self.token`, `self.base_url`).  A Python `None` token is
`Option.none`. -/
structure IEXApi where
  token : Option String
  base_url : String

/-- The exceptions `_create_request` can raise internally: `TypeError` when
`symbols`/`data_set` are not provided as lists, `NotImplementedError` for an
unknown `request_type`. -/
inductive ReqError
  | typeError
  | notImplementedError
deriving DecidableEq, Repr

/-- Embedding of the body of `IEXApi._create_request` (src/iex_api.py lines
132-153) before the surrounding `try/except`: either a URL string or the
raised exception.  A Python argument left at its default `None` is `none`;
an empty Python list is `some []` (it passes the `isinstance(…, list)`
check in the source). -/
def createRequestCore (api : IEXApi) (request_type : String)
    (symbols data_set : Option (List String)) : Except ReqError String :=
  if request_type = "stat" ∨ request_type = "info" then
    match symbols, data_set with
    | some syms, some ds =>
        Except.ok (api.base_url ++ "/stable/stock/market/batch?symbols=" ++
          String.intercalate "," syms ++ "&types=" ++
          String.intercalate "," ds ++ "&")
    | _, _ => Except.error ReqError.typeError
  else if request_type = "sector_list" then
    Except.ok (api.base_url ++ "/stable/ref-data/sectors?")
  else
    Except.error ReqError.notImplementedError

/-- Embedding of `IEXApi._create_request` including its catch-all
`except Exception` handler, which logs and returns the sentinel string
`"fuck off"` instead of propagating. -/
def createRequest (api : IEXApi) (request_type : String)
    (symbols data_set : Option (List String)) : String :=
  match createRequestCore api request_type symbols data_set with
  | Except.ok url => url
  | Except.error _ => "fuck off"

/-- Python `f"{x}"` on an optional string: `None` prints as `"None"`. -/
def pyStrOpt : Option String → String
  | none => "None"
  | some s => s

/-- Embedding of `IEXApi._send_request` (src/iex_api.py lines 159-174): it
appends `token=<str(self.token)>` to the request string and performs exactly
one GET.  The result lists the URLs of the GET requests issued (always a
singleton). -/
def send_request (api : IEXApi) (request : String) : List String :=
  [request ++ "token=" ++ pyStrOpt api.token]

/-- Embedding of `IEXApi.get_stats` (src/iex_api.py lines 49-67): `none`
models the Python `return None` taken when more than 100 symbols are given
(no request is issued); otherwise the single batched request is sent. -/
def get_stats (api : IEXApi) (symbols : List String) : Option (List String) :=
  if 100 < symbols.length then none
  else some (send_request api
    (createRequest api "stat" (some symbols) (some ["stats", "price"])))

/-- Embedding of `IEXApi.get_advanced_stats` (src/iex_api.py lines 69-86). -/
def get_advanced_stats (api : IEXApi) (symbols : List String) :
    Option (List String) :=
  if 100 < symbols.length then none
  else some (send_request api
    (createRequest api "stat" (some symbols) (some ["advanced-stats"])))

/-- Fuel-indexed loop body of `IEXApi._chunk_symbols_list`: each step yields
`symbols[i:i+n]` and advances by `n`.  The fuel starts at the list length,
which suffices for every chunk size `n ≥ 1`. -/
def chunkAux {α : Type} (n : ℕ) : ℕ → List α → List (List α)
  | _, [] => []
  | 0, _ :: _ => []
  | fuel + 1, x :: xs => ((x :: xs).take n) :: chunkAux n fuel ((x :: xs).drop n)

/-- Embedding of `IEXApi._chunk_symbols_list` (src/iex_api.py lines 176-185):
the generator `for i in range(0, len(symbols), n): yield symbols[i:i+n]`,
materialised as the list of yielded chunks. -/
def chunk_symbols_list {α : Type} (symbols : List α) (n : ℕ) : List (List α) :=
  chunkAux n symbols.length symbols

/-- A pandas column: one optional rational per row (`none` is a NaN cell). -/
abbrev Col := List (Option ℚ)

/-- The valid (non-NaN) values of a column. -/
def validVals (col : Col) : List ℚ := col.filterMap id

/-- Number of valid (non-NaN) values of a column, the divisor pandas uses for
`rank(pct=True)`. -/
def nValid (col : Col) : ℕ := (validVals col).length

/-- Number of valid values strictly below `v`. -/
def countBelow (col : Col) (v : ℚ) : ℕ :=
  (validVals col).countP (fun x => decide (x < v))

/-- Number of valid values equal to `v` (the size of the tied group). -/
def countEqual (col : Col) (v : ℚ) : ℕ :=
  (validVals col).countP (fun x => decide (x = v))

/-- The rank pandas `Series.rank()` assigns with its default
`method='average'`: tied values share the average of the rank positions the
group occupies, which is `countBelow + (countEqual + 1) / 2`. -/
def avgRank (col : Col) (v : ℚ) : ℚ :=
  (countBelow col v : ℚ) + ((countEqual col v : ℚ) + 1) / 2

/-- Embedding of `Series.rank(pct=True)` as used at src/analysis.py line 69:
each valid cell becomes its average rank divided by the number of valid
values; NaN cells stay NaN (`na_option='keep'`). -/
def pctRank (col : Col) : Col :=
  col.map (Option.map (fun v => avgRank col v / (nValid col : ℚ)))

/-- Row-wise combination of the four percentile columns (the `DataFrame`
cells at one row index). -/
def map4 (f : Option ℚ → Option ℚ → Option ℚ → Option ℚ → Option ℚ) :
    Col → Col → Col → Col → Col
  | a :: as, b :: bs, c :: cs, d :: ds => f a b c d :: map4 f as bs cs ds
  | _, _, _, _ => []

/-- Embedding of `DataFrame.mean(axis=1)` on one row of the four percentile
columns: pandas skips NaN cells (`skipna=True` default), so the mean is taken
over the available cells only, and is NaN when none is available. -/
def rowMean (a b c d : Option ℚ) : Option ℚ :=
  match [a, b, c, d].filterMap id with
  | [] => none
  | v :: vs => some ((v :: vs).sum / ((v :: vs).length : ℚ))

/-- The input table of `Analysis.momentum_analysis`: the symbol column and
the four period-change columns selected at src/analysis.py lines 64-65. -/
structure StatsDF where
  symbol : List String
  month1ChangePercent : Col
  month3ChangePercent : Col
  month6ChangePercent : Col
  year1ChangePercent : Col

/-- The output table of `Analysis.momentum_analysis`: the selected columns,
one `_tile` percentile column per change column, and the averaged
percentile column. -/
structure MomDF where
  symbol : List String
  month1ChangePercent : Col
  month3ChangePercent : Col
  month6ChangePercent : Col
  year1ChangePercent : Col
  month1ChangePercent_tile : Col
  month3ChangePercent_tile : Col
  month6ChangePercent_tile : Col
  year1ChangePercent_tile : Col
  avgPercentiles : Col

/-- Embedding of `Analysis.momentum_analysis` (src/analysis.py lines 53-75):
for each of the four change columns it adds `<col>_tile = <col>.rank(pct=True)`,
then `avgPercentiles` is the row-wise mean of the four `_tile` columns. -/
def momentum_analysis (df : StatsDF) : MomDF :=
  { symbol := df.symbol
    month1ChangePercent := df.month1ChangePercent
    month3ChangePercent := df.month3ChangePercent
    month6ChangePercent := df.month6ChangePercent
    year1ChangePercent := df.year1ChangePercent
    month1ChangePercent_tile := pctRank df.month1ChangePercent
    month3ChangePercent_tile := pctRank df.month3ChangePercent
    month6ChangePercent_tile := pctRank df.month6ChangePercent
    year1ChangePercent_tile := pctRank df.year1ChangePercent
    avgPercentiles := map4 rowMean
      (pctRank df.month1ChangePercent) (pctRank df.month3ChangePercent)
      (pctRank df.month6ChangePercent) (pctRank df.year1ChangePercent) }

/-- Expansion `data_df['stats'].apply(pd.Series)` performs on one cell of
the `stats` column: a present nested object contributes its named fields, a
NaN cell contributes no named fields (every flattened field stays unset for
that row). -/
def flattenCell : Option (List (String × ℚ)) → List (String × ℚ)
  | some fields => fields
  | none => []

/-- Embedding of the reshaping in `Analysis.get_symbol_stats`
(src/analysis.py lines 126-143).  The input is the symbol-keyed JSON object:
per symbol, the nested `"stats"` object (a list of named rational fields)
when present, or `none` when absent.  `from_dict(...).transpose()` gives the
table a `stats` column only when at least one symbol carries the nested key;
otherwise (also for the empty object) `data_df['stats']` raises `KeyError`
and the whole operation fails, embedded as `none`.  When the column exists,
each symbol's row gets the `flattenCell` expansion of its cell merged in and
the nested key dropped, yielding symbol paired with its flattened fields. -/
def get_symbol_stats_rows (data : List (String × Option (List (String × ℚ)))) :
    Option (List (String × List (String × ℚ))) :=
  if data.any (fun p => p.2.isSome) then
    some (data.map (fun p => (p.1, flattenCell p.2)))
  else
    none

/-- Example fetchers use a fixed sandbox instance with no token configured. -/
def apiSand : IEXApi := { token := none, base_url := "https://sandbox.iexapis.com" }

/-- The momentum example table of the spec: four symbols whose
`month1ChangePercent` values are [0.10, 0.05, 0.20, 0.05] (a tie at 0.05). -/
def dfEx : StatsDF :=
  { symbol := ["A", "B", "C", "D"]
    month1ChangePercent := [some (1/10), some (1/20), some (1/5), some (1/20)]
    month3ChangePercent := [some 1, some 2, some 3, some 4]
    month6ChangePercent := [some 1, some 1, some 1, some 1]
    year1ChangePercent := [some 2, some 4, some 6, some 8] }

/-- A one-row table whose `month1ChangePercent` value is missing while the
other three change values are present. -/
def dfMiss : StatsDF :=
  { symbol := ["A"]
    month1ChangePercent := [none]
    month3ChangePercent := [some 0]
    month6ChangePercent := [some 0]
    year1ChangePercent := [some 0] }

/-- The flattener example of the spec: AAPL has a nested stats object with
peRatio 30, TSLA has no nested stats object. -/
def exData : List (String × Option (List (String × ℚ))) :=
  [("AAPL", some [("peRatio", 30)]), ("TSLA", none)]

/-- In any list of rationals, the values strictly below `v` and the values
equal to `v` are disjoint, so together they number at most the list length. -/
theorem countP_lt_add_countP_eq_le (l : List ℚ) (v : ℚ) :
    l.countP (fun x => decide (x < v)) + l.countP (fun x => decide (x = v)) ≤
      l.length := by
  induction l with
  | nil => simp
  | cons x xs ih =>
    simp only [List.countP_cons, List.length_cons]
    by_cases hlt : x < v
    · have hne : ¬x = v := fun h => absurd (h ▸ hlt) (lt_irrefl v)
      simp [hlt, hne]
      omega
    · by_cases heq : x = v <;> simp [hlt, heq] <;> omega

/-- A valid cell of a column contributes its value to `validVals`. -/
theorem mem_validVals_of_getElem? {col : Col} {i : ℕ} {v : ℚ}
    (h : col[i]? = some (some v)) : v ∈ validVals col :=
  List.mem_filterMap.mpr ⟨some v, List.getElem?_mem h, rfl⟩

/-- A value occurring in the column is counted at least once by `countEqual`. -/
theorem countEqual_pos {col : Col} {v : ℚ} (h : v ∈ validVals col) :
    1 ≤ countEqual col v :=
  List.countP_pos_iff.mpr ⟨v, h, by simp⟩

/-- The percentile pandas assigns to a value occurring in the column lies in
the closed interval [0, 1]. -/
theorem pct_mem_unit {col : Col} {v : ℚ} (h : v ∈ validVals col) :
    0 ≤ avgRank col v / (nValid col : ℚ) ∧
      avgRank col v / (nValid col : ℚ) ≤ 1 := by
  have hE : 1 ≤ countEqual col v := countEqual_pos h
  have hLE : countBelow col v + countEqual col v ≤ nValid col := by
    unfold countBelow countEqual nValid
    exact countP_lt_add_countP_eq_le (validVals col) v
  have hN : 1 ≤ nValid col := le_trans hE (le_trans (Nat.le_add_left _ _) hLE)
  have hNq : (0 : ℚ) < (nValid col : ℚ) := by exact_mod_cast hN
  constructor
  · apply div_nonneg _ (le_of_lt hNq)
    unfold avgRank
    positivity
  · rw [div_le_one hNq]
    unfold avgRank
    have hEq : (1 : ℚ) ≤ (countEqual col v : ℚ) := by exact_mod_cast hE
    have hLEq : (countBelow col v : ℚ) + (countEqual col v : ℚ) ≤
        (nValid col : ℚ) := by exact_mod_cast hLE
    linarith

/-- Cell-wise description of `pctRank`. -/
theorem pctRank_getElem? (col : Col) (i : ℕ) :
    (pctRank col)[i]? =
      Option.map (Option.map (fun v => avgRank col v / (nValid col : ℚ)))
        col[i]? :=
  List.getElem?_map _ _ _

/-- Cell-wise description of `map4` when all four columns have row `i`. -/
theorem map4_getElem?
    (f : Option ℚ → Option ℚ → Option ℚ → Option ℚ → Option ℚ) :
    ∀ (as bs cs ds : Col) (i : ℕ) (a b c d : Option ℚ),
      as[i]? = some a → bs[i]? = some b → cs[i]? = some c → ds[i]? = some d →
      (map4 f as bs cs ds)[i]? = some (f a b c d) := by
  intro as
  induction as with
  | nil => intro bs cs ds i a b c d h1 h2 h3 h4; simp at h1
  | cons a' as ih =>
    intro bs cs ds i a b c d h1 h2 h3 h4
    cases bs with
    | nil => simp at h2
    | cons b' bs =>
      cases cs with
      | nil => simp at h3
      | cons c' cs =>
        cases ds with
        | nil => simp at h4
        | cons d' ds =>
          cases i with
          | zero =>
            simp only [List.getElem?_cons_zero, Option.some.injEq] at h1 h2 h3 h4
            subst h1; subst h2; subst h3; subst h4
            simp [map4]
          | succ i =>
            simp only [List.getElem?_cons_succ] at h1 h2 h3 h4
            simpa [map4] using ih bs cs ds i a b c d h1 h2 h3 h4

/-- C1: for every input table, `momentum_analysis` computes each of the four
`_tile` columns independently as the pandas percentile rank of its change
column: a valid cell of value v becomes its average rank (tied values share
the average rank position) divided by the count of valid values of that
column; every resulting percentile lies in [0, 1], and cells with equal
values receive equal percentiles. -/
theorem momentum_percentile_rank (df : StatsDF) :
    ((momentum_analysis df).month1ChangePercent_tile =
        pctRank df.month1ChangePercent ∧
      (momentum_analysis df).month3ChangePercent_tile =
        pctRank df.month3ChangePercent ∧
      (momentum_analysis df).month6ChangePercent_tile =
        pctRank df.month6ChangePercent ∧
      (momentum_analysis df).year1ChangePercent_tile =
        pctRank df.year1ChangePercent) ∧
    ∀ col ∈ [df.month1ChangePercent, df.month3ChangePercent,
      df.month6ChangePercent, df.year1ChangePercent],
      (∀ (i : ℕ) (v : ℚ), col[i]? = some (some v) →
        (pctRank col)[i]? = some (some (avgRank col v / (nValid col : ℚ))) ∧
        0 ≤ avgRank col v / (nValid col : ℚ) ∧
        avgRank col v / (nValid col : ℚ) ≤ 1) ∧
      (∀ (i j : ℕ) (v w : ℚ), col[i]? = some (some v) → col[j]? = some (some w) →
        v = w → (pctRank col)[i]? = (pctRank col)[j]?) := by
  refine ⟨⟨rfl, rfl, rfl, rfl⟩, ?_⟩
  intro col _hcol
  constructor
  · intro i v h
    have hb := pct_mem_unit (mem_validVals_of_getElem? h)
    refine ⟨?_, hb.1, hb.2⟩
    rw [pctRank_getElem?, h]
    rfl
  · intro i j v w hi hj hvw
    subst hvw
    rw [pctRank_getElem? col i, pctRank_getElem? col j, hi, hj]

/-- C1 witness: in the spec's example table the two symbols tied at 0.05 get
the same month-1 percentile 3/8 = (0 + (2+1)/2) / 4. -/
theorem momentum_percentile_rank_witness :
    (pctRank dfEx.month1ChangePercent)[1]? =
        (pctRank dfEx.month1ChangePercent)[3]? ∧
      (pctRank dfEx.month1ChangePercent)[1]? = some (some (3 / 8)) := by
  have h := momentum_percentile_rank dfEx
  have hmem : dfEx.month1ChangePercent ∈ [dfEx.month1ChangePercent,
      dfEx.month3ChangePercent, dfEx.month6ChangePercent,
      dfEx.year1ChangePercent] := by simp
  refine ⟨(h.2 _ hmem).2 1 3 (1/20) (1/20) (by norm_num [dfEx])
    (by norm_num [dfEx]) rfl, ?_⟩
  have h2 := ((h.2 _ hmem).1 1 (1/20) (by norm_num [dfEx])).1
  rw [h2]
  norm_num [avgRank, countBelow, countEqual, nValid, validVals, dfEx,
    List.countP_cons, List.filterMap_cons]

/-- C2: `avgPercentiles` at each row is the pandas row mean of the four
percentile columns: the mean over the available (non-missing) percentiles
only, missing when all four are missing; and a missing source change value
yields a missing percentile in the corresponding `_tile` column. -/
theorem momentum_avg_percentiles (df : StatsDF) (i : ℕ) (a b c d : Option ℚ)
    (h1 : (momentum_analysis df).month1ChangePercent_tile[i]? = some a)
    (h2 : (momentum_analysis df).month3ChangePercent_tile[i]? = some b)
    (h3 : (momentum_analysis df).month6ChangePercent_tile[i]? = some c)
    (h4 : (momentum_analysis df).year1ChangePercent_tile[i]? = some d) :
    (momentum_analysis df).avgPercentiles[i]? = some (rowMean a b c d) ∧
    (df.month1ChangePercent[i]? = some none → a = none) ∧
    (df.month3ChangePercent[i]? = some none → b = none) ∧
    (df.month6ChangePercent[i]? = some none → c = none) ∧
    (df.year1ChangePercent[i]? = some none → d = none) ∧
    (∀ (v : ℚ) (vs : List ℚ), [a, b, c, d].filterMap id = v :: vs →
      rowMean a b c d = some ((v :: vs).sum / ((v :: vs).length : ℚ))) ∧
    ([a, b, c, d].filterMap id = [] → rowMean a b c d = none) := by
  have h1' : (pctRank df.month1ChangePercent)[i]? = some a := h1
  have h2' : (pctRank df.month3ChangePercent)[i]? = some b := h2
  have h3' : (pctRank df.month6ChangePercent)[i]? = some c := h3
  have h4' : (pctRank df.year1ChangePercent)[i]? = some d := h4
  refine ⟨map4_getElem? rowMean _ _ _ _ i a b c d h1 h2 h3 h4, ?_, ?_, ?_, ?_, ?_, ?_⟩
  · intro hsrc
    have := pctRank_getElem? df.month1ChangePercent i
    rw [h1', hsrc] at this
    simpa using this
  · intro hsrc
    have := pctRank_getElem? df.month3ChangePercent i
    rw [h2', hsrc] at this
    simpa using this
  · intro hsrc
    have := pctRank_getElem? df.month6ChangePercent i
    rw [h3', hsrc] at this
    simpa using this
  · intro hsrc
    have := pctRank_getElem? df.year1ChangePercent i
    rw [h4', hsrc] at this
    simpa using this
  · intro v vs hfm
    unfold rowMean
    rw [hfm]
  · intro hfm
    unfold rowMean
    rw [hfm]

/-- C2 witness: in the one-row table with the month-1 value missing the
average percentile is the mean over the three available percentiles (each
equal to 1), hence 1 rather than the 3/4 that treating the missing
percentile as zero would give. -/
theorem momentum_avg_percentiles_witness :
    (momentum_analysis dfMiss).avgPercentiles[0]? = some (some 1) := by
  have h := momentum_avg_percentiles dfMiss 0 none (some 1) (some 1) (some 1)
    (by norm_num [momentum_analysis, dfMiss, pctRank])
    (by norm_num [momentum_analysis, dfMiss, pctRank, avgRank, countBelow,
      countEqual, nValid, validVals, List.countP_cons, List.filterMap_cons])
    (by norm_num [momentum_analysis, dfMiss, pctRank, avgRank, countBelow,
      countEqual, nValid, validVals, List.countP_cons, List.filterMap_cons])
    (by norm_num [momentum_analysis, dfMiss, pctRank, avgRank, countBelow,
      countEqual, nValid, validVals, List.countP_cons, List.filterMap_cons])
  rw [h.1]
  norm_num [rowMean, List.filterMap_cons]

/-- C3: for request kinds stat and info with (non-empty) symbol and dataset
lists, `_create_request` returns exactly the string
`<base_url>/stable/stock/market/batch?symbols=<comma-joined symbols>&types=<comma-joined dataset names>&`. -/
theorem create_request_batch_url (api : IEXApi) (symbols data_set : List String)
    (_hs : symbols ≠ []) (_hd : data_set ≠ []) :
    createRequest api "stat" (some symbols) (some data_set) =
      api.base_url ++ "/stable/stock/market/batch?symbols=" ++
        String.intercalate "," symbols ++ "&types=" ++
        String.intercalate "," data_set ++ "&" ∧
    createRequest api "info" (some symbols) (some data_set) =
      api.base_url ++ "/stable/stock/market/batch?symbols=" ++
        String.intercalate "," symbols ++ "&types=" ++
        String.intercalate "," data_set ++ "&" := by
  constructor <;> rfl

/-- C3 witness: the spec's concrete example, evaluated on the sandbox base
URL with symbols AAPL, MSFT and datasets stats, price. -/
theorem create_request_batch_url_witness :
    createRequest apiSand "stat" (some ["AAPL", "MSFT"])
        (some ["stats", "price"]) =
      "https://sandbox.iexapis.com/stable/stock/market/batch?symbols=AAPL,MSFT&types=stats,price&" := by
  have h := create_request_batch_url apiSand ["AAPL", "MSFT"] ["stats", "price"]
    (by simp) (by simp)
  rw [h.1]
  rfl

/-- C4 counterexample: called with an empty symbols list (which passes the
`isinstance(symbols, list)` check of the source), `_create_request` returns a
batch URL with an empty comma-join, not the sentinel failure value. -/
theorem create_request_empty_symbols_counterexample :
    createRequest apiSand "stat" (some []) (some ["stats", "price"]) =
      "https://sandbox.iexapis.com/stable/stock/market/batch?symbols=&types=stats,price&" ∧
    createRequest apiSand "stat" (some []) (some ["stats", "price"]) ≠
      "fuck off" := by
  constructor
  · rfl
  · intro h
    exact absurd (rfl.trans h) (by decide)

/-- C4 amended: for kinds stat and info, `_create_request` fails with the
caught `TypeError` (surfaced as the sentinel placeholder value) exactly when
`symbols` or `data_set` is absent (Python `None`); empty lists are accepted
and produce a batch URL. -/
theorem create_request_missing_args (api : IEXApi) (rt : String)
    (hrt : rt = "stat" ∨ rt = "info")
    (symbols data_set : Option (List String))
    (h : symbols = none ∨ data_set = none) :
    createRequestCore api rt symbols data_set =
      Except.error ReqError.typeError ∧
    createRequest api rt symbols data_set = "fuck off" := by
  have hcore : createRequestCore api rt symbols data_set =
      Except.error ReqError.typeError := by
    unfold createRequestCore
    rw [if_pos hrt]
    rcases h with h | h
    · subst h
      rfl
    · subst h
      cases symbols <;> rfl
  exact ⟨hcore, by unfold createRequest; rw [hcore]⟩

/-- C4 amended witness: with `symbols` left at its `None` default the stat
request fails with the sentinel. -/
theorem create_request_missing_args_witness :
    createRequest apiSand "stat" none (some ["stats", "price"]) =
      "fuck off" :=
  (create_request_missing_args apiSand "stat" (Or.inl rfl) none
    (some ["stats", "price"]) (Or.inl rfl)).2

/-- C5: the required tolerance fails on the code.  At the input mapping
TSLA to an empty record, no symbol carries the nested stats key, the `stats`
column does not exist, `data_df['stats']` raises `KeyError` and the whole
operation fails with no rows (likewise for the empty object), where the
claim requires a row for TSLA with its flattened fields unset.  Only when at
least one symbol carries the key, as in the claim's AAPL/TSLA example, does
the per-row tolerance hold (AAPL's peRatio 30 merged in, TSLA's row with
every field unset). -/
theorem get_symbol_stats_keyerror :
    get_symbol_stats_rows [("TSLA", none)] = none ∧
    get_symbol_stats_rows [] = none ∧
    get_symbol_stats_rows exData =
      some [("AAPL", [("peRatio", (30 : ℚ))]), ("TSLA", [])] :=
  ⟨rfl, rfl, rfl⟩

/-- C6: `get_stats` and `get_advanced_stats` return the absent result `None`
exactly when more than 100 symbols are passed (no request is issued then);
with at most 100 symbols `get_stats` issues the single batched request for
datasets stats and price. -/
theorem get_stats_symbol_cap (api : IEXApi) (symbols : List String) :
    (get_stats api symbols = none ↔ 100 < symbols.length) ∧
    (get_advanced_stats api symbols = none ↔ 100 < symbols.length) ∧
    (symbols.length ≤ 100 →
      get_stats api symbols = some [api.base_url ++
        "/stable/stock/market/batch?symbols=" ++
        String.intercalate "," symbols ++ "&types=" ++
        String.intercalate "," ["stats", "price"] ++ "&" ++
        "token=" ++ pyStrOpt api.token]) := by
  refine ⟨?_, ?_, ?_⟩
  · unfold get_stats
    by_cases h : 100 < symbols.length <;> simp [h]
  · unfold get_advanced_stats
    by_cases h : 100 < symbols.length <;> simp [h]
  · intro h
    unfold get_stats
    rw [if_neg (by omega)]
    rfl

/-- C6 witness: one symbol is fetched in a single batched stats+price call;
101 symbols yield the absent result. -/
theorem get_stats_symbol_cap_witness :
    get_stats apiSand ["AAPL"] =
      some ["https://sandbox.iexapis.com/stable/stock/market/batch?symbols=AAPL&types=stats,price&token=None"] ∧
    get_stats apiSand (List.replicate 101 "A") = none := by
  constructor
  · rw [(get_stats_symbol_cap apiSand ["AAPL"]).2.2 (by simp)]
    rfl
  · exact (get_stats_symbol_cap apiSand (List.replicate 101 "A")).1.mpr
      (by simp)

/-- With enough fuel (at least the list length) and a positive chunk size,
the chunks concatenate back to the input list. -/
theorem chunkAux_flatten {α : Type} (n : ℕ) (hn : 1 ≤ n) :
    ∀ (fuel : ℕ) (l : List α), l.length ≤ fuel →
      (chunkAux n fuel l).flatten = l := by
  intro fuel
  induction fuel with
  | zero =>
    intro l hl
    cases l with
    | nil => rfl
    | cons x xs => simp at hl
  | succ fuel ih =>
    intro l hl
    cases l with
    | nil => rfl
    | cons x xs =>
      have hdrop : ((x :: xs).drop n).length ≤ fuel := by
        rw [List.length_drop]
        simp only [List.length_cons] at hl ⊢
        omega
      calc (chunkAux n (fuel + 1) (x :: xs)).flatten
          = (x :: xs).take n ++ (chunkAux n fuel ((x :: xs).drop n)).flatten := by
            rw [chunkAux, List.flatten_cons]
        _ = (x :: xs).take n ++ (x :: xs).drop n := by rw [ih _ hdrop]
        _ = x :: xs := List.take_append_drop n (x :: xs)

/-- Every chunk the chunker yields has length at most `n`. -/
theorem chunkAux_chunk_le {α : Type} (n : ℕ) :
    ∀ (fuel : ℕ) (l : List α), ∀ c ∈ chunkAux n fuel l, c.length ≤ n := by
  intro fuel
  induction fuel with
  | zero =>
    intro l c hc
    cases l <;> simp [chunkAux] at hc
  | succ fuel ih =>
    intro l c hc
    cases l with
    | nil => simp [chunkAux] at hc
    | cons x xs =>
      rw [chunkAux, List.mem_cons] at hc
      rcases hc with rfl | hc
      · exact List.length_take_le n (x :: xs)
      · exact ih _ c hc

/-- C7: for every list and every chunk size n ≥ 1 the chunker terminates and
yields sub-lists of length at most n whose concatenation, in yielded order,
is exactly the input list (every element covered exactly once, no overlap,
order preserved). -/
theorem chunk_symbols_list_spec {α : Type} (symbols : List α) (n : ℕ)
    (hn : 1 ≤ n) :
    (∀ c ∈ chunk_symbols_list symbols n, c.length ≤ n) ∧
    (chunk_symbols_list symbols n).flatten = symbols :=
  ⟨fun c hc => chunkAux_chunk_le n symbols.length symbols c hc,
    chunkAux_flatten n hn symbols.length symbols le_rfl⟩

set_option maxRecDepth 4000 in
/-- C7 witness: a 250-element list chunked with n = 100 yields exactly three
chunks of sizes 100, 100 and 50 that reassemble the input. -/
theorem chunk_symbols_list_spec_witness :
    (chunk_symbols_list (List.range 250) 100).map List.length =
        [100, 100, 50] ∧
      (chunk_symbols_list (List.range 250) 100).flatten = List.range 250 :=
  ⟨by rfl, (chunk_symbols_list_spec (List.range 250) 100 (by norm_num)).2⟩

/-- C8: an unknown request kind raises `NotImplementedError` internally;
every internal failure is caught at the `_create_request` boundary and
converted to the sentinel placeholder string instead of propagating; and for
kind sector_list the fixed sectors URL is returned whatever symbols and
data_set are. -/
theorem create_request_catch_all (api : IEXApi) (rt : String)
    (symbols data_set : Option (List String)) :
    (rt ≠ "stat" → rt ≠ "info" → rt ≠ "sector_list" →
      createRequestCore api rt symbols data_set =
        Except.error ReqError.notImplementedError) ∧
    (∀ e : ReqError,
      createRequestCore api rt symbols data_set = Except.error e →
      createRequest api rt symbols data_set = "fuck off") ∧
    createRequest api "sector_list" symbols data_set =
      api.base_url ++ "/stable/ref-data/sectors?" := by
  refine ⟨?_, ?_, rfl⟩
  · intro h1 h2 h3
    unfold createRequestCore
    rw [if_neg (by simp [h1, h2]), if_neg h3]
  · intro e he
    unfold createRequest
    rw [he]

/-- C8 witness: the unknown kind bogus is turned into the sentinel string at
the boundary. -/
theorem create_request_catch_all_witness :
    createRequest apiSand "bogus" none none = "fuck off" := by
  have h := create_request_catch_all apiSand "bogus" none none
  exact h.2.1 ReqError.notImplementedError
    (h.1 (by decide) (by decide) (by decide))

/-- C9: the result of `_create_request` is independent of the access token:
two instances that differ only in their token (same base_url) return the
same string on every input, so the produced base query string never contains
the token. -/
theorem create_request_token_independent (a b : IEXApi)
    (hbase : a.base_url = b.base_url) (rt : String)
    (symbols data_set : Option (List String)) :
    createRequest a rt symbols data_set =
      createRequest b rt symbols data_set := by
  unfold createRequest createRequestCore
  rw [hbase]

/-- C9 witness: an instance with a secret token and a token-less instance on
the same base URL produce the same request string. -/
theorem create_request_token_independent_witness :
    createRequest
        { token := some "SECRET-TOKEN",
          base_url := "https://sandbox.iexapis.com" }
        "stat" (some ["AAPL"]) (some ["stats"]) =
      createRequest apiSand "stat" (some ["AAPL"]) (some ["stats"]) :=
  create_request_token_independent _ apiSand rfl "stat" (some ["AAPL"])
    (some ["stats"])

/-- C10: `_send_request` issues exactly one GET, to the given query string
with the literal text `token=` followed by the Python string form of the
token appended; with no token configured the request is still sent, with
`token=None` in the URL. -/
theorem send_request_appends_token (api : IEXApi) (request : String) :
    send_request api request = [request ++ "token=" ++ pyStrOpt api.token] ∧
    (send_request api request).length = 1 ∧
    (api.token = none → send_request api request =
      [request ++ "token=None"]) := by
  refine ⟨rfl, rfl, ?_⟩
  intro h
  unfold send_request
  rw [h, String.append_assoc]
  exact rfl

/-- C10 witness: with no token configured the sectors query is still sent,
with token=None appended. -/
theorem send_request_appends_token_witness :
    send_request apiSand
        "https://sandbox.iexapis.com/stable/ref-data/sectors?" =
      ["https://sandbox.iexapis.com/stable/ref-data/sectors?token=None"] :=
  (send_request_appends_token apiSand
    "https://sandbox.iexapis.com/stable/ref-data/sectors?").2.2 rfl
